import Mathlib

/-!
Formal model of the geometric core of
`src/data/data_visualizor/visualization_utils.py`.

Numbers are modelled as exact rationals (`ℚ`); python `int(...)` truncation and
`round` are modelled explicitly.  Point clouds and per-point colour buffers are
`List Vec3`; the open3d viewer is an external collaborator, so only the state
the python code itself manipulates (segment counter, colour buffer, window
liveness) is embedded.
-/

attribute [local semireducible] Rat.add Rat.sub Rat.mul Rat.inv

namespace VisUtils

/-- A 3-component rational vector: a point, a colour, or a box dimension. -/
structure Vec3 where
  x : ℚ
  y : ℚ
  z : ℚ
deriving DecidableEq, Repr

/-- A 4-component rational vector (homogeneous coordinates). -/
structure Vec4 where
  x : ℚ
  y : ℚ
  z : ℚ
  w : ℚ
deriving DecidableEq, Repr

/-- A 4×4 rational matrix given by its rows, as `lidar2img_rt` in the source. -/
structure Mat4 where
  r0 : Vec4
  r1 : Vec4
  r2 : Vec4
  r3 : Vec4
deriving DecidableEq, Repr

def Vec3.get (v : Vec3) (i : Fin 3) : ℚ :=
  if i = 0 then v.x else if i = 1 then v.y else v.z

def Vec3.set (v : Vec3) (i : Fin 3) (q : ℚ) : Vec3 :=
  if i = 0 then ⟨q, v.y, v.z⟩ else if i = 1 then ⟨v.x, q, v.z⟩ else ⟨v.x, v.y, q⟩

def Vec3.zero : Vec3 := ⟨0, 0, 0⟩

def Vec3.neg (v : Vec3) : Vec3 := ⟨-v.x, -v.y, -v.z⟩

def dot4 (a b : Vec4) : ℚ := a.x * b.x + a.y * b.y + a.z * b.z + a.w * b.w

/-- `pts_4d @ lidar2img_rt.T` for one point: append a homogeneous 1 and take
the dot product with each row of the matrix
(`visualization_utils.py` lines 541-542 and 624-630). -/
def applyRT (m : Mat4) (p : Vec3) : Vec4 :=
  ⟨dot4 m.r0 ⟨p.x, p.y, p.z, 1⟩, dot4 m.r1 ⟨p.x, p.y, p.z, 1⟩,
   dot4 m.r2 ⟨p.x, p.y, p.z, 1⟩, dot4 m.r3 ⟨p.x, p.y, p.z, 1⟩⟩

/-- `np.clip(q, lo, hi)`: lower bound first, then upper bound. -/
def clampQ (q lo hi : ℚ) : ℚ := min hi (max lo q)

/-- The clamped homogeneous depth of `project_pts_on_img` (line 546):
`np.clip(pts_2d[:, 2], a_min=1e-5, a_max=99999)`. -/
def clampedDepth (m : Mat4) (p : Vec3) : ℚ :=
  clampQ (applyRT m p).z (1 / 100000) 99999

/-- One point through `project_pts_on_img` lines 541-548: homogeneous
transform, depth clamp, perspective divide.  The result carries `(u, v, d)`
exactly as `pts_2d[:, :3]` does after the in-place updates. -/
def projectPt (m : Mat4) (p : Vec3) : Vec3 :=
  ⟨(applyRT m p).x / clampedDepth m p, (applyRT m p).y / clampedDepth m p,
   clampedDepth m p⟩

/-- The clamped homogeneous depth of `draw_lidar_bbox3d_on_img` (line 632):
`np.clip(pts_2d[:, 2], a_min=1e-5, a_max=1e5)`. -/
def clampedDepthBox (m : Mat4) (p : Vec3) : ℚ :=
  clampQ (applyRT m p).z (1 / 100000) 100000

/-- One box corner through `draw_lidar_bbox3d_on_img` lines 630-635: the same
transform and divide, with upper clamp `1e5`, keeping only `(u, v)`. -/
def projectCornerUV (m : Mat4) (p : Vec3) : ℚ × ℚ :=
  ((applyRT m p).x / clampedDepthBox m p, (applyRT m p).y / clampedDepthBox m p)

/-- Python `int(...)` on a real value: truncation toward zero. -/
def pyInt (q : ℚ) : ℤ := if 0 ≤ q then ⌊q⌋ else ⌈q⌉

/-- The palette index of `project_pts_on_img` line 561:
`np.clip(int(max_distance * 10 / depth), 0, 255)`. -/
def depthColorIndex (maxDist depth : ℚ) : ℤ :=
  min 255 (max 0 (pyInt (maxDist * 10 / depth)))

/-- The palette index as the spec words it: `clamp(round(maxDistance·10/depth),
0, 255)`, with rounding instead of the source's truncation. -/
def depthColorIndexSpec (maxDist depth : ℚ) : ℤ :=
  min 255 (max 0 (round (maxDist * 10 / depth)))

/-- The field-of-view test of `project_pts_on_img` lines 550-553 on a projected
point `(u, v, d)`; `w` is `img.shape[1]`, `h` is `img.shape[0]`. -/
def inFov (w h : ℚ) (q : Vec3) : Bool :=
  decide (q.x < w) && decide (0 ≤ q.x) && decide (q.y < h) && decide (0 ≤ q.y)

/-- `project_pts_on_img` lines 541-561 as a pure function: project every point,
keep the in-FOV ones, and pair each with its depth-colour palette index. -/
def projectPtsOnImg (m : Mat4) (w h maxDist : ℚ) (pts : List Vec3) :
    List (ℚ × ℚ × ℤ) :=
  ((pts.map (projectPt m)).filter (inFov w h)).map
    (fun q => (q.x, q.y, depthColorIndex maxDist q.z))

/-- The centre-mode correction shared by `_draw_bboxes` lines 150-155 and
`_draw_bboxes_ind` lines 289-294: `lidar_bottom` adds `dim[rot_axis]/2` to
`center[rot_axis]`, `camera_bottom` subtracts it, anything else leaves the
centre as given. -/
def correctedCenter (center dim : Vec3) (rotAxis : Fin 3) (cm : String) : Vec3 :=
  if cm = "lidar_bottom" then
    center.set rotAxis (center.get rotAxis + dim.get rotAxis / 2)
  else if cm = "camera_bottom" then
    center.set rotAxis (center.get rotAxis - dim.get rotAxis / 2)
  else center

/-- One row of the `bbox3d` array: `(x, y, z, x_size, y_size, z_size, yaw)`. -/
structure BoxRow where
  cx : ℚ
  cy : ℚ
  cz : ℚ
  sx : ℚ
  sy : ℚ
  sz : ℚ
  yaw : ℚ
deriving DecidableEq, Repr

/-- The arguments handed to `open3d.geometry.OrientedBoundingBox`: the
(possibly corrected) centre, the euler-angle vector passed to
`get_rotation_matrix_from_xyz`, and the extents. -/
structure OBoxParams where
  center : Vec3
  yawVec : Vec3
  dim : Vec3
deriving DecidableEq, Repr

/-- The box construction in the loop body of `_draw_bboxes` (lines 143-156):
`yaw[rot_axis] = bbox3d[i, 6]`, then the centre-mode correction, then
`OrientedBoundingBox(center, rot_mat, dim)`. -/
def geoBoxParams (b : BoxRow) (rotAxis : Fin 3) (cm : String) : OBoxParams :=
  { center := correctedCenter ⟨b.cx, b.cy, b.cz⟩ ⟨b.sx, b.sy, b.sz⟩ rotAxis cm
    yawVec := Vec3.zero.set rotAxis b.yaw
    dim := ⟨b.sx, b.sy, b.sz⟩ }

/-- The box construction in the loop body of `_draw_bboxes_ind`
(lines 280-295): identical except `yaw[rot_axis] = -bbox3d[i, 6]`. -/
def indBoxParams (b : BoxRow) (rotAxis : Fin 3) (cm : String) : OBoxParams :=
  { center := correctedCenter ⟨b.cx, b.cy, b.cz⟩ ⟨b.sx, b.sy, b.sz⟩ rotAxis cm
    yawVec := Vec3.zero.set rotAxis (-b.yaw)
    dim := ⟨b.sx, b.sy, b.sz⟩ }

/-- The indexed-mode box construction as claim C2 words it: rotation by `-yaw`
about the UNcorrected centre (the bottom-to-gravity shift omitted). -/
def indBoxParamsClaimed (b : BoxRow) (rotAxis : Fin 3) (_cm : String) :
    OBoxParams :=
  { center := ⟨b.cx, b.cy, b.cz⟩
    yawVec := Vec3.zero.set rotAxis (-b.yaw)
    dim := ⟨b.sx, b.sy, b.sz⟩ }

/-- `points_colors[indices] = in_box_color` for one box: walk the colour
buffer, overwriting position `i` when `member i` holds; `i0` is the index of
the head of the remaining list. -/
def recolorAux (member : ℕ → Bool) (ibc : Vec3) : ℕ → List Vec3 → List Vec3
  | _, [] => []
  | i0, c :: cs => (if member i0 then ibc else c) :: recolorAux member ibc (i0 + 1) cs

/-- The colour effect of the loop of `_draw_bboxes` (lines 143-166): for each
box `j` in order, when a point cloud is present and `mode == 'xyz'`, the points
open3d reports inside box `j` (abstracted as `inBox i j`, a pure function of
the fixed points and boxes) are repainted with `in_box_color`. -/
def drawBboxesColors (pcdPresent : Bool) (mode : String)
    (inBox : ℕ → ℕ → Bool) (numBoxes : ℕ) (ibc : Vec3) (cs : List Vec3) :
    List Vec3 :=
  (List.range numBoxes).foldl
    (fun acc j =>
      if pcdPresent && (mode == "xyz") then
        recolorAux (fun i => inBox i j) ibc 0 acc
      else acc)
    cs

/-- The colour effect of the loop of `_draw_bboxes_ind` (lines 280-304): the
same overwrite, with membership read off column `j` of the supplied
`indices` matrix instead of a geometric test. -/
def drawBboxesIndColors (pcdPresent : Bool) (mode : String)
    (indices : ℕ → ℕ → Bool) (numBoxes : ℕ) (ibc : Vec3) (cs : List Vec3) :
    List Vec3 :=
  (List.range numBoxes).foldl
    (fun acc j =>
      if pcdPresent && (mode == "xyz") then
        recolorAux (fun i => indices i j) ibc 0 acc
      else acc)
    cs

/-- `((points_colors >= 0.0) & (points_colors <= 1.0)).all()` for one colour
row (`_draw_points` line 98). -/
def inUnit (c : Vec3) : Bool :=
  decide (0 ≤ c.x ∧ c.x ≤ 1) && decide (0 ≤ c.y ∧ c.y ≤ 1) &&
    decide (0 ≤ c.z ∧ c.z ≤ 1)

/-- The colour array produced by the `xyzrgb` branch of `_draw_points`
(lines 94-99): the raw channels, divided by 255 when any entry of the whole
array falls outside `[0, 1]`. -/
def drawPointsColorsRGB (colors : List Vec3) : List Vec3 :=
  if colors.all inUnit then colors
  else colors.map (fun c => ⟨c.x / 255, c.y / 255, c.z / 255⟩)

/-- `np.max` over a list of rationals; `none` on an empty array (numpy raises
`ValueError` there). -/
def npMax : List ℚ → Option ℚ
  | [] => none
  | q :: qs => some (qs.foldl max q)

/-- `np.min` over a list of rationals; `none` on an empty array. -/
def npMin : List ℚ → Option ℚ
  | [] => none
  | q :: qs => some (qs.foldl min q)

/-- `(np.array(self.pcd.points).max(0) - np.array(self.pcd.points).min(0))[0]`:
the x-axis extent of a point cloud (`add_seg_mask` lines 486-487). -/
def xExtent (pts : List Vec3) : Option ℚ :=
  match npMax (pts.map Vec3.x), npMin (pts.map Vec3.x) with
  | some hi, some lo => some (hi - lo)
  | _, _ => none

/-- Errors the python code can actually raise on the modelled paths. -/
inductive VisErr
  | valueError
deriving DecidableEq, Repr

/-- `Except.isOk` spelled out, so success and failure of a call are a
decidable observation. -/
def exceptOk {ε α : Type} : Except ε α → Bool
  | .ok _ => true
  | .error _ => false

/-- The state of a `Visualizer` object built with a point cloud: the python
attributes the geometric core reads or writes, plus `closed`, recording
whether `destroy_window` has run on the external window.  The python class
stores no such flag itself. -/
structure Visualizer where
  mode : String
  rot_axis : Fin 3
  center_mode : String
  seg_num : ℕ
  basePoints : List Vec3
  points_colors : List Vec3
  closed : Bool
deriving DecidableEq, Repr

/-- `Visualizer.add_bboxes` (lines 453-472): delegates to `_draw_bboxes` with
`self.pcd` present; no state check or raise occurs on this path, so the call
always succeeds at the python level, whatever `closed` is. -/
def Visualizer.add_bboxes (v : Visualizer) (inBox : ℕ → ℕ → Bool)
    (numBoxes : ℕ) (ibc : Vec3) : Except VisErr Visualizer :=
  .ok { v with
          points_colors :=
            drawBboxesColors true v.mode inBox numBoxes ibc v.points_colors }

/-- `Visualizer.add_seg_mask` (lines 474-494): increment `self.seg_num`, set
`offset = extent_x(base) * 1.2 * self.seg_num`, and shift the new group's x
coordinates by it.  Returns the offset, the translated group and the new
state; fails only when the base cloud is empty (numpy `max` raises).  The
group's colour columns play no role here and are left out. -/
def Visualizer.add_seg_mask (v : Visualizer) (segPts : List Vec3) :
    Except VisErr (ℚ × List Vec3 × Visualizer) :=
  let n := v.seg_num + 1
  match xExtent v.basePoints with
  | none => .error .valueError
  | some e =>
      let offset := e * (6 / 5) * (n : ℚ)
      .ok (offset, segPts.map (fun p => ⟨p.x + offset, p.y, p.z⟩),
           { v with seg_num := n })

/-- `Visualizer.show` (lines 496-509): runs the blocking loop, optionally
captures an image, and calls `destroy_window`; only the last step changes the
modelled state. -/
def Visualizer.showViewer (v : Visualizer) : Visualizer :=
  { v with closed := true }

/-- A tiny concrete scene: two points one unit apart on the x axis, grey
colours, fresh segment counter, window open. -/
def exampleScene : Visualizer :=
  { mode := "xyz"
    rot_axis := 2
    center_mode := "lidar_bottom"
    seg_num := 0
    basePoints := [⟨0, 0, 0⟩, ⟨1, 0, 0⟩]
    points_colors := [⟨1/2, 1/2, 1/2⟩, ⟨1/2, 1/2, 1/2⟩]
    closed := false }

/-- The identity projection matrix. -/
def idMat4 : Mat4 :=
  ⟨⟨1, 0, 0, 0⟩, ⟨0, 1, 0, 0⟩, ⟨0, 0, 1, 0⟩, ⟨0, 0, 0, 1⟩⟩


theorem recolorAux_getElem? (member : ℕ → Bool) (ibc : Vec3) (cs : List Vec3) :
    ∀ (k n : ℕ), (recolorAux member ibc k cs)[n]? =
      (cs[n]?).map (fun c => if member (k + n) then ibc else c) := by
  induction cs with
  | nil => intro k n; simp [recolorAux]
  | cons c cs ih =>
    intro k n
    cases n with
    | zero => simp [recolorAux]
    | succ n =>
      have hk : k + 1 + n = k + (n + 1) := by omega
      simpa [recolorAux, hk] using ih (k + 1) n

theorem foldl_keep {α : Type} {β : Type} (l : List β) (x : α) :
    l.foldl (fun acc _ => acc) x = x := by
  induction l generalizing x with
  | nil => rfl
  | cons b l ih => exact ih x

theorem drawBboxesColors_gate_false (p : Bool) (mode : String)
    (hg : (p && (mode == "xyz")) = false) (inBox : ℕ → ℕ → Bool)
    (numBoxes : ℕ) (ibc : Vec3) (cs : List Vec3) :
    drawBboxesColors p mode inBox numBoxes ibc cs = cs := by
  unfold drawBboxesColors
  simp only [hg, Bool.false_eq_true, if_false]
  exact foldl_keep _ _

theorem drawBboxesColors_succ (p : Bool) (mode : String) (inBox : ℕ → ℕ → Bool)
    (nb : ℕ) (ibc : Vec3) (cs : List Vec3) :
    drawBboxesColors p mode inBox (nb + 1) ibc cs =
      (if p && (mode == "xyz") then
        recolorAux (fun i => inBox i nb) ibc 0 (drawBboxesColors p mode inBox nb ibc cs)
      else drawBboxesColors p mode inBox nb ibc cs) := by
  unfold drawBboxesColors
  rw [List.range_succ, List.foldl_append]
  simp [List.foldl]

theorem drawBboxesColors_gate_true_getElem? (p : Bool) (mode : String)
    (hg : (p && (mode == "xyz")) = true) (inBox : ℕ → ℕ → Bool) (ibc : Vec3) :
    ∀ (numBoxes : ℕ) (cs : List Vec3) (n : ℕ),
      (drawBboxesColors p mode inBox numBoxes ibc cs)[n]? =
        (cs[n]?).map (fun c =>
          if (List.range numBoxes).any (fun j => inBox n j) then ibc else c) := by
  intro numBoxes
  induction numBoxes with
  | zero =>
    intro cs n
    unfold drawBboxesColors
    simp
  | succ nb ih =>
    intro cs n
    rw [drawBboxesColors_succ, if_pos hg, recolorAux_getElem?, ih, Option.map_map]
    cases hcs : cs[n]? with
    | none => simp
    | some c =>
      simp only [Option.map_some, Function.comp, List.range_succ, List.any_append,
        List.any_cons, List.any_nil, Bool.or_false, Nat.zero_add]
      by_cases hb : inBox n nb = true <;>
        by_cases ha : (List.range nb).any (fun j => inBox n j) = true <;>
          simp [hb, ha]

theorem drawBboxesIndColors_eq_geo (p : Bool) (mode : String)
    (indices : ℕ → ℕ → Bool) (numBoxes : ℕ) (ibc : Vec3) (cs : List Vec3) :
    drawBboxesIndColors p mode indices numBoxes ibc cs =
      drawBboxesColors p mode indices numBoxes ibc cs := rfl



/-- Claim C8: the geometric in-box recolouring of `_draw_bboxes` is idempotent:
repainting with the same box list (same membership, same in-box colour) twice
gives the same colour buffer as doing it once. -/
theorem c8_recolor_idempotent (p : Bool) (mode : String)
    (inBox : ℕ → ℕ → Bool) (numBoxes : ℕ) (ibc : Vec3) (cs : List Vec3) :
    drawBboxesColors p mode inBox numBoxes ibc
        (drawBboxesColors p mode inBox numBoxes ibc cs)
      = drawBboxesColors p mode inBox numBoxes ibc cs := by
  by_cases hg : (p && (mode == "xyz")) = true
  · apply List.ext_getElem?
    intro n
    rw [drawBboxesColors_gate_true_getElem? p mode hg,
      drawBboxesColors_gate_true_getElem? p mode hg, Option.map_map]
    cases cs[n]? with
    | none => simp
    | some c =>
      by_cases ha : (List.range numBoxes).any (fun j => inBox n j) = true <;>
        simp [ha]
  · have hf : (p && (mode == "xyz")) = false := by
      cases hpg : p && (mode == "xyz")
      · rfl
      · exact absurd hpg hg
    simp only [drawBboxesColors_gate_false p mode hf]

/-- Claim C9: with point mode `xyzrgb` the in-box recolouring is skipped in
both the geometric (`_draw_bboxes`) and the indexed (`_draw_bboxes_ind`)
assignment: the colour buffer comes back unchanged. -/
theorem c9_xyzrgb_skip (p : Bool) (inBox indices : ℕ → ℕ → Bool)
    (numBoxes : ℕ) (ibc : Vec3) (cs : List Vec3) :
    drawBboxesColors p "xyzrgb" inBox numBoxes ibc cs = cs
    ∧ drawBboxesIndColors p "xyzrgb" indices numBoxes ibc cs = cs := by
  constructor
  · exact drawBboxesColors_gate_false p "xyzrgb" (by cases p <;> rfl) inBox numBoxes ibc cs
  · rw [drawBboxesIndColors_eq_geo]
    exact drawBboxesColors_gate_false p "xyzrgb" (by cases p <;> rfl) indices numBoxes ibc cs

/-- Claim C5: `lidar_bottom` shifts the box centre up by `size[rot_axis]/2`
along `rot_axis` before building the oriented box, `camera_bottom` shifts it
down, and any other centre mode leaves the centre as given. -/
theorem c5_center_mode (b : BoxRow) (a : Fin 3) :
    (geoBoxParams b a "lidar_bottom").center
        = (Vec3.mk b.cx b.cy b.cz).set a
            ((Vec3.mk b.cx b.cy b.cz).get a + (Vec3.mk b.sx b.sy b.sz).get a / 2)
    ∧ (geoBoxParams b a "camera_bottom").center
        = (Vec3.mk b.cx b.cy b.cz).set a
            ((Vec3.mk b.cx b.cy b.cz).get a - (Vec3.mk b.sx b.sy b.sz).get a / 2)
    ∧ (∀ cm : String, cm ≠ "lidar_bottom" → cm ≠ "camera_bottom" →
        (geoBoxParams b a cm).center = Vec3.mk b.cx b.cy b.cz) := by
  refine ⟨rfl, ?_, ?_⟩
  · simp [geoBoxParams, correctedCenter]
  · intro cm h1 h2
    simp [geoBoxParams, correctedCenter, h1, h2]

theorem c5_center_mode_witness :
    (geoBoxParams ⟨1, 2, 3, 4, 5, 6, 7⟩ 2 "gravity").center = Vec3.mk 1 2 3 :=
  (c5_center_mode ⟨1, 2, 3, 4, 5, 6, 7⟩ 2).2.2 "gravity" (by decide) (by decide)



/-- Claim C6: both projections clamp the homogeneous depth to at least `1e-5`
before the perspective divide, so for every input point, behind the camera
plane or not, the divisor is positive and never zero. -/
theorem c6_depth_clamp_safe (m : Mat4) (p : Vec3) :
    1 / 100000 ≤ clampedDepth m p ∧ 0 < clampedDepth m p
    ∧ (projectPt m p).x = (applyRT m p).x / clampedDepth m p
    ∧ (projectPt m p).y = (applyRT m p).y / clampedDepth m p
    ∧ 1 / 100000 ≤ clampedDepthBox m p ∧ 0 < clampedDepthBox m p := by
  have h1 : (1 : ℚ) / 100000 ≤ clampedDepth m p :=
    le_min (by norm_num) (le_max_left _ _)
  have h2 : (1 : ℚ) / 100000 ≤ clampedDepthBox m p :=
    le_min (by norm_num) (le_max_left _ _)
  exact ⟨h1, lt_of_lt_of_le (by norm_num) h1, rfl, rfl, h2,
    lt_of_lt_of_le (by norm_num) h2⟩

/-- Claim C10: both projections also clamp depth from above: a point whose
homogeneous depth exceeds `99999` (point overlay) or `1e5` (lidar-box
projection) has its pixel coordinates computed by dividing by that bound, a
position different from the true perspective divide when the numerator is
nonzero. -/
theorem c10_upper_clamp (m : Mat4) (p : Vec3) :
    (99999 < (applyRT m p).z →
      clampedDepth m p = 99999
      ∧ (projectPt m p).x = (applyRT m p).x / 99999
      ∧ (projectPt m p).y = (applyRT m p).y / 99999
      ∧ ((applyRT m p).x ≠ 0 →
          (projectPt m p).x ≠ (applyRT m p).x / (applyRT m p).z))
    ∧ (100000 < (applyRT m p).z →
      clampedDepthBox m p = 100000
      ∧ (projectCornerUV m p).1 = (applyRT m p).x / 100000
      ∧ (projectCornerUV m p).2 = (applyRT m p).y / 100000) := by
  constructor
  · intro hz
    have hmax : max (1 / 100000 : ℚ) (applyRT m p).z = (applyRT m p).z :=
      max_eq_right (le_of_lt (lt_trans (by norm_num) hz))
    have hcl : clampedDepth m p = 99999 := by
      unfold clampedDepth clampQ
      rw [hmax]
      exact min_eq_left (le_of_lt hz)
    refine ⟨hcl, ?_, ?_, ?_⟩
    · show (applyRT m p).x / clampedDepth m p = (applyRT m p).x / 99999
      rw [hcl]
    · show (applyRT m p).y / clampedDepth m p = (applyRT m p).y / 99999
      rw [hcl]
    · intro hx hne
      have hz0 : (applyRT m p).z ≠ 0 := ne_of_gt (lt_trans (by norm_num) hz)
      have : (applyRT m p).x / 99999 = (applyRT m p).x / (applyRT m p).z := by
        calc (applyRT m p).x / 99999 = (projectPt m p).x := by rw [show (projectPt m p).x = (applyRT m p).x / clampedDepth m p from rfl, hcl]
        _ = (applyRT m p).x / (applyRT m p).z := hne
      rw [div_eq_div_iff (by norm_num) hz0] at this
      have := mul_left_cancel₀ hx this
      exact absurd this.symm (ne_of_lt hz)
  · intro hz
    have hmax : max (1 / 100000 : ℚ) (applyRT m p).z = (applyRT m p).z :=
      max_eq_right (le_of_lt (lt_trans (by norm_num) hz))
    have hcl : clampedDepthBox m p = 100000 := by
      unfold clampedDepthBox clampQ
      rw [hmax]
      exact min_eq_left (le_of_lt hz)
    refine ⟨hcl, ?_, ?_⟩
    · show (applyRT m p).x / clampedDepthBox m p = (applyRT m p).x / 100000
      rw [hcl]
    · show (applyRT m p).y / clampedDepthBox m p = (applyRT m p).y / 100000
      rw [hcl]

theorem c10_upper_clamp_witness :
    clampedDepth idMat4 ⟨1, 2, 500000⟩ = 99999
    ∧ clampedDepthBox idMat4 ⟨1, 2, 500000⟩ = 100000 := by
  have h := c10_upper_clamp idMat4 ⟨1, 2, 500000⟩
  exact ⟨(h.1 (by decide)).1, (h.2 (by decide)).1⟩



/-- Claim C2 counterexample: for the box `(0,0,0,2,2,2,1)` with
`rot_axis = 2` and `center_mode = lidar_bottom`, `_draw_bboxes_ind` builds the
box around the corrected centre `(0,0,1)`, not the uncorrected `(0,0,0)` the
claim describes: the bottom-to-gravity shift is NOT omitted. -/
theorem c2_ind_box_counterexample :
    (indBoxParams ⟨0, 0, 0, 2, 2, 2, 1⟩ 2 "lidar_bottom").center = Vec3.mk 0 0 1
    ∧ (indBoxParamsClaimed ⟨0, 0, 0, 2, 2, 2, 1⟩ 2 "lidar_bottom").center
        = Vec3.mk 0 0 0
    ∧ indBoxParams ⟨0, 0, 0, 2, 2, 2, 1⟩ 2 "lidar_bottom"
        ≠ indBoxParamsClaimed ⟨0, 0, 0, 2, 2, 2, 1⟩ 2 "lidar_bottom" := by
  refine ⟨by decide, by decide, by decide⟩

/-- Claim C2 (amended): the indexed point-box assignment negates the yaw sign
but applies the same bottom/gravity centre correction as the geometric mode:
for every box row, rotation axis and centre mode, the two constructions agree
on centre and extents, and the euler-angle vector of the indexed mode is the
negation of the geometric one. -/
theorem c2_ind_box_amended (b : BoxRow) (a : Fin 3) (cm : String) :
    (indBoxParams b a cm).center = (geoBoxParams b a cm).center
    ∧ (indBoxParams b a cm).dim = (geoBoxParams b a cm).dim
    ∧ (indBoxParams b a cm).yawVec = Vec3.neg ((geoBoxParams b a cm).yawVec) := by
  refine ⟨rfl, rfl, ?_⟩
  show Vec3.zero.set a (-b.yaw) = Vec3.neg (Vec3.zero.set a b.yaw)
  fin_cases a <;> simp [Vec3.set, Vec3.zero, Vec3.neg]

/-- Claim C3 counterexample: the in-FOV point `(0,0,400)` under the identity
projection with `max_distance = 70` gets palette index
`int(700/400) = 1`, while the claimed `round(700/400) = 2`. -/
theorem c3_depth_color_counterexample :
    inFov 10 10 (projectPt idMat4 ⟨0, 0, 400⟩) = true
    ∧ projectPtsOnImg idMat4 10 10 70 [⟨0, 0, 400⟩] = [(0, 0, 1)]
    ∧ depthColorIndexSpec 70 (projectPt idMat4 ⟨0, 0, 400⟩).z = 2
    ∧ (1 : ℤ) ≠ 2 := by
  refine ⟨by decide, by decide, by decide, by decide⟩

/-- Claim C3 (amended): for every in-FOV projected point the overlay colour
index equals `clamp(trunc(maxDistance·10/d), 0, 255)` where `d` is the clamped
depth and `trunc` is python `int` truncation toward zero (not rounding). -/
theorem c3_depth_color_amended (m : Mat4) (w hgt maxDist : ℚ) (p : Vec3)
    (hf : inFov w hgt (projectPt m p) = true) :
    projectPtsOnImg m w hgt maxDist [p]
      = [((projectPt m p).x, (projectPt m p).y,
          min 255 (max 0 (pyInt (maxDist * 10 / clampedDepth m p))))] := by
  simp only [projectPtsOnImg, List.map_cons, List.map_nil, List.filter_cons, hf,
    if_true, List.filter_nil, depthColorIndex]
  rfl

theorem c3_depth_color_witness :
    projectPtsOnImg idMat4 10 10 70 [⟨0, 0, 50⟩]
      = [((projectPt idMat4 ⟨0, 0, 50⟩).x, (projectPt idMat4 ⟨0, 0, 50⟩).y,
          min 255 (max 0 (pyInt (70 * 10 / clampedDepth idMat4 ⟨0, 0, 50⟩))))] :=
  c3_depth_color_amended idMat4 10 10 70 ⟨0, 0, 50⟩ (by decide)



/-- Claim C1 counterexample: on a fresh scene whose base cloud has x-extent 1,
the FIRST additional point group already gets offset `1.2 × 1 × extent = 6/5`,
not the claimed `0`: `seg_num` is incremented before the offset is computed. -/
theorem c1_seg_offset_counterexample :
    exampleScene.seg_num = 0
    ∧ xExtent exampleScene.basePoints = some 1
    ∧ (exampleScene.add_seg_mask []).toOption.map Prod.fst = some (6 / 5)
    ∧ (6 / 5 : ℚ) ≠ 0 := by
  refine ⟨by decide, by decide, by decide, by decide⟩

/-- Claim C1 (amended): on a scene with a non-empty base cloud of x-extent
`e`, the k-th additional point group added via `add_seg_mask` gets offset
`1.2 × k × e` (counter incremented before use): a call made with the counter
at `k-1` returns offset `e × 1.2 × k` and leaves the counter at `k`. -/
theorem c1_seg_offset_amended (v : Visualizer) (segPts : List Vec3) (e : ℚ)
    (hx : xExtent v.basePoints = some e) :
    (v.add_seg_mask segPts).toOption.map Prod.fst
        = some (e * (6 / 5) * ((v.seg_num : ℚ) + 1))
    ∧ (v.add_seg_mask segPts).toOption.map (fun r => r.2.2.seg_num)
        = some (v.seg_num + 1) := by
  unfold Visualizer.add_seg_mask
  rw [hx]
  constructor
  · show some (e * (6 / 5) * ((v.seg_num + 1 : ℕ) : ℚ))
        = some (e * (6 / 5) * ((v.seg_num : ℚ) + 1))
    norm_cast
  · rfl

theorem c1_seg_offset_witness :
    (exampleScene.add_seg_mask []).toOption.map Prod.fst
        = some (1 * (6 / 5) * ((exampleScene.seg_num : ℚ) + 1))
    ∧ (exampleScene.add_seg_mask []).toOption.map (fun r => r.2.2.seg_num)
        = some (exampleScene.seg_num + 1) :=
  c1_seg_offset_amended exampleScene [] 1 (by decide)

/-- Claim C4 counterexample: after `show()` has destroyed the window,
`add_bboxes` on the same scene still returns successfully: no explicit error
is raised on a post-close mutating call. -/
theorem c4_closed_counterexample :
    (exampleScene.showViewer).closed = true
    ∧ exceptOk
        ((exampleScene.showViewer).add_bboxes (fun _ _ => false) 1 ⟨1, 0, 0⟩)
        = true := by
  refine ⟨rfl, by decide⟩

/-- Claim C4 (amended): the Visualizer keeps no closed-state flag and checks
none: after `show()`, `add_bboxes` always succeeds at the python level, and
`add_seg_mask` succeeds whenever the base cloud is non-empty; failure is left
as undefined behaviour of the destroyed external viewer rather than an
explicit error. -/
theorem c4_closed_amended (v : Visualizer) (inBox : ℕ → ℕ → Bool)
    (numBoxes : ℕ) (ibc : Vec3) (segPts : List Vec3) :
    (v.showViewer).closed = true
    ∧ exceptOk ((v.showViewer).add_bboxes inBox numBoxes ibc) = true
    ∧ (v.basePoints ≠ [] →
        exceptOk ((v.showViewer).add_seg_mask segPts) = true) := by
  refine ⟨rfl, rfl, ?_⟩
  intro hne
  cases hbp : v.basePoints with
  | nil => exact absurd hbp hne
  | cons q qs =>
    simp [Visualizer.add_seg_mask, Visualizer.showViewer, xExtent, npMax,
      npMin, hbp, exceptOk]

theorem c4_closed_witness :
    (exampleScene.showViewer).closed = true
    ∧ exceptOk ((exampleScene.showViewer).add_bboxes (fun _ _ => true) 2 ⟨0, 1, 0⟩)
        = true
    ∧ exceptOk ((exampleScene.showViewer).add_seg_mask [⟨5, 5, 5⟩]) = true := by
  have h := c4_closed_amended exampleScene (fun _ _ => true) 2 ⟨0, 1, 0⟩ [⟨5, 5, 5⟩]
  exact ⟨h.1, h.2.1, h.2.2 (by decide)⟩

/-- Claim C7 counterexample: a colour channel of 300 trips the normalization
check, but `300/255 = 20/17 > 1`: the array handed to the rendering surface is
NOT within `[0,1]` for inputs outside `[0,255]`. -/
theorem c7_color_normalization_counterexample :
    drawPointsColorsRGB [⟨300, 0, 0⟩] = [⟨20 / 17, 0, 0⟩]
    ∧ ¬ ((20 / 17 : ℚ) ≤ 1) := by
  refine ⟨by decide, by decide⟩

/-- Claim C7 (amended): for colour channels within `[0,255]` the array handed
to the rendering surface has every channel in `[0,1]`; the division by 255 is
applied exactly when some channel falls outside `[0,1]`. -/
theorem c7_color_normalization_amended (colors : List Vec3)
    (h : ∀ c ∈ colors, 0 ≤ c.x ∧ c.x ≤ 255 ∧ 0 ≤ c.y ∧ c.y ≤ 255
          ∧ 0 ≤ c.z ∧ c.z ≤ 255) :
    (∀ c ∈ drawPointsColorsRGB colors,
        0 ≤ c.x ∧ c.x ≤ 1 ∧ 0 ≤ c.y ∧ c.y ≤ 1 ∧ 0 ≤ c.z ∧ c.z ≤ 1)
    ∧ (¬ (colors.all inUnit = true) →
        drawPointsColorsRGB colors
          = colors.map (fun c => ⟨c.x / 255, c.y / 255, c.z / 255⟩)) := by
  constructor
  · intro c hc
    unfold drawPointsColorsRGB at hc
    by_cases hall : colors.all inUnit = true
    · rw [if_pos hall] at hc
      have := (List.all_eq_true.mp hall) c hc
      unfold inUnit at this
      simp only [Bool.and_eq_true, decide_eq_true_eq] at this
      exact ⟨this.1.1.1, this.1.1.2, this.1.2.1, this.1.2.2, this.2.1, this.2.2⟩
    · rw [if_neg hall] at hc
      obtain ⟨a, ha, rfl⟩ := List.mem_map.mp hc
      obtain ⟨hx0, hx1, hy0, hy1, hz0, hz1⟩ := h a ha
      refine ⟨div_nonneg hx0 (by norm_num), ?_, div_nonneg hy0 (by norm_num),
        ?_, div_nonneg hz0 (by norm_num), ?_⟩
      · rw [div_le_one (by norm_num)]; exact hx1
      · rw [div_le_one (by norm_num)]; exact hy1
      · rw [div_le_one (by norm_num)]; exact hz1
  · intro hall
    unfold drawPointsColorsRGB
    rw [if_neg hall]

theorem c7_color_normalization_witness :
    (∀ c ∈ drawPointsColorsRGB [(⟨255, 1 / 2, 0⟩ : Vec3)],
        0 ≤ c.x ∧ c.x ≤ 1 ∧ 0 ≤ c.y ∧ c.y ≤ 1 ∧ 0 ≤ c.z ∧ c.z ≤ 1)
    ∧ (¬ ([(⟨255, 1 / 2, 0⟩ : Vec3)].all inUnit = true) →
        drawPointsColorsRGB [(⟨255, 1 / 2, 0⟩ : Vec3)]
          = [(⟨255, 1 / 2, 0⟩ : Vec3)].map
              (fun c => ⟨c.x / 255, c.y / 255, c.z / 255⟩)) :=
  c7_color_normalization_amended [⟨255, 1 / 2, 0⟩] (by decide)

end VisUtils
